import Mathlib

/-!
Verification of the Lumina desktop launcher (Electron shell around a
Streamlit subprocess).  The definitions below are a shallow embedding of
the three JavaScript source files:

* `main.js`   — window creation, the `checkStreamlit` readiness-polling
  interval, `startStreamlit` (path resolution, python detection, spawn,
  exit observation), and the shutdown handlers (`closed`,
  `window-all-closed`, `before-quit`);
* the unnamed draft launcher (`src/unnamed/part_000`) — an earlier copy of
  the same launcher with a different probe timeout, candidate path list and
  an unbounded python-detection loop;
* `setup.js`  — the `setupDataFiles` CSV seeding routine.

Asynchronous callback code (the polling interval, HTTP request handlers,
subprocess events, window events) is embedded as an explicit event-loop
state machine: a `LauncherState` record mirrors the closure variables of
`createWindow`/`startStreamlit`, and `step` executes one JavaScript
callback invocation.  A run of the launcher is a list of events folded by
`step`; invalid events (a tick of a cleared interval, a response for a
request that was never issued, a second `close` event of the subprocess)
are rejected with `none`.  The scheduler is adversarial: an HTTP response,
error or timeout callback may arrive at any time after its request was
issued, because Node's `timeout` request option is a socket-inactivity
bound, not a bound on the total duration of the request, so a request can
still be pending when later interval ticks fire.
-/

/-- Static configuration of a readiness probe: the polling interval, the
per-attempt request timeout, the probed address, and the attempt bound.
One instance per launcher source file, with the literals of that file. -/
structure ProbeConfig where
  intervalMs : Nat
  timeoutMs : Nat
  host : String
  port : Nat
  reqPath : String
  maxAttempts : Nat
deriving DecidableEq

/-- The probe constants of `main.js` (`createWindow`, lines 100–145):
`setInterval(..., 2000)`, `http.request({hostname:'localhost', port:8501,
path:'/', timeout:2000})`, `const maxAttempts = 30`. -/
def mainProbe : ProbeConfig :=
  { intervalMs := 2000, timeoutMs := 2000, host := "localhost", port := 8501
    reqPath := "/", maxAttempts := 30 }

/-- The probe constants of the draft launcher (`part_000`, lines 54–98):
identical except `timeout: 1000`. -/
def draftProbe : ProbeConfig :=
  { intervalMs := 2000, timeoutMs := 1000, host := "localhost", port := 8501
    reqPath := "/", maxAttempts := 30 }

/-- `main.js` line 101: `const maxAttempts = 30`. -/
def maxAttempts : Nat := 30

/-- `main.js` line 331: per-candidate timeout of the `--version` probe in
the python-detection loop (`execSync(cmd + ' --version', {timeout: 5000})`). -/
def versionProbeTimeoutMs : Nat := 5000

/-- `main.js` line 350: timeout of the one-shot streamlit module check
(`execSync(pythonCmd + ' -m streamlit --version', {timeout: 10000})`). -/
def moduleCheckTimeoutMs : Nat := 10000

/-- `main.js` line 161: grace period of the `setTimeout` armed by the
window `closed` handler before the SIGKILL check runs. -/
def stopGraceMs : Nat := 5000

/-- Outcome of one probe HTTP request, as seen by the three callbacks
registered on the request in `checkStreamlit`:

* `status c` — the response callback ran with `res.statusCode = c`;
* `connError` — the `error` event fired (e.g. connection refused);
* `timedOut` — the `timeout` event fired (socket inactivity).
-/
inductive Outcome
  | status (code : Nat)
  | connError
  | timedOut
deriving DecidableEq

/-- One JavaScript callback invocation of the launcher.

* `tick` — the `checkStreamlit` interval callback.  Node guarantees that a
  cleared interval never fires again, so `tick` is only valid while the
  interval is active.
* `respond id o` — a callback of the request issued by tick number `id`
  runs with outcome `o`; valid only while that request is pending, and
  settles it.
* `spawnFailTimer` — the `setTimeout(() => showErrorScreen(), 1000)`
  scheduled by the `catch` block of `startStreamlit` fires.
* `procClose code` — the subprocess `close` event fires with exit `code`
  (`none` models a `null` code, i.e. signal termination).
* `windowClosed` — the `mainWindow.on('closed')` handler runs.
* `killTimer` — the 5000 ms `setTimeout` armed by the `closed` handler
  fires.
* `windowAllClosed` — the `app.on('window-all-closed')` handler runs.
* `beforeQuit` — the `app.on('before-quit')` handler runs.
-/
inductive Event
  | tick
  | respond (id : Nat) (o : Outcome)
  | spawnFailTimer
  | procClose (code : Option Int)
  | windowClosed
  | killTimer
  | windowAllClosed
  | beforeQuit
deriving DecidableEq

/-- The mutable state of one launcher run: the closure variables of
`createWindow` (`attempts`, the live interval, the pending HTTP requests),
the module-level `streamlitProcess` handle with its Node `killed` flag,
and counters of the observable effects (network calls issued, ready
navigations, error screens, signals delivered). -/
structure LauncherState where
  /-- the `attempts` counter of `checkStreamlit`. -/
  attempts : Nat
  /-- whether the `checkStreamlit` interval is still set (not yet
  `clearInterval`-ed). -/
  intervalActive : Bool
  /-- tick numbers whose HTTP request has been issued but whose response,
  error or timeout callback has not yet run. -/
  pending : List Nat
  /-- id of the next request to be issued. -/
  nextId : Nat
  /-- total number of probe HTTP requests issued. -/
  callsIssued : Nat
  /-- number of times `mainWindow.loadURL('http://localhost:8501')`
  followed by `mainWindow.show()` ran (the Ready resolution). -/
  readyLoads : Nat
  /-- number of times `showErrorScreen()` ran (the Failed presentation). -/
  errorScreens : Nat
  /-- whether `spawn` was reached, i.e. the `streamlitProcess` handle
  exists (it is never reset to `null`). -/
  procStarted : Bool
  /-- whether the subprocess has actually exited. -/
  procExited : Bool
  /-- Node's `ChildProcess.killed` flag: set once a signal was
  successfully sent via `kill`, regardless of whether the process exited. -/
  killedFlag : Bool
  /-- signals successfully delivered to the live subprocess, in order. -/
  signalsSent : List String
  /-- whether the subprocess `close` event already fired (it fires once). -/
  procCloseFired : Bool
  /-- whether the window `closed` event already fired (it fires once). -/
  windowClosedFired : Bool
  /-- whether the 5000 ms SIGKILL check of the `closed` handler is armed. -/
  killTimerArmed : Bool
  /-- whether the delayed `showErrorScreen` of a failed `startStreamlit`
  is still scheduled. -/
  spawnFailPending : Bool
deriving DecidableEq

/-- `streamlitProcess.kill(sig)` (Node semantics): if the handle exists
and the process is still alive, the signal is delivered and the `killed`
flag becomes true; killing an already-exited process fails silently
(returns `false`) and leaves the flag unchanged; without a handle the
calling handlers skip the call entirely. -/
def killProcess (s : LauncherState) (sig : String) : LauncherState :=
  if s.procStarted && !s.procExited then
    { s with signalsSent := s.signalsSent ++ [sig], killedFlag := true }
  else s

/-- One callback invocation.  Each branch is read off the corresponding
handler in `main.js`:

* interval callback (lines 104–145): `attempts++`, issue one GET; the
  response callback resolves (clearInterval + loadURL + show) only on
  `statusCode === 200` and does nothing otherwise; the `error` and
  `timeout` callbacks clearInterval and show the error screen exactly when
  `attempts >= maxAttempts` at the moment they run;
* `startStreamlit` catch / subprocess close (lines 403–422): the close
  handler shows the error screen iff `code !== 0 && code !== null`;
* shutdown (lines 152–163, 434–442, 450–455): `closed` sends SIGTERM and
  arms the 5000 ms timer whose callback sends SIGKILL iff the handle
  exists and `killed` is still false; `window-all-closed` and
  `before-quit` each send a further SIGTERM whenever the handle exists.
-/
def step (s : LauncherState) : Event → Option LauncherState
  | .tick =>
      if s.intervalActive then
        some { s with
          attempts := s.attempts + 1
          pending := s.pending ++ [s.nextId]
          nextId := s.nextId + 1
          callsIssued := s.callsIssued + 1 }
      else none
  | .respond id o =>
      if id ∈ s.pending then
        let s1 := { s with pending := s.pending.erase id }
        match o with
        | .status c =>
            if c = 200 then
              some { s1 with intervalActive := false, readyLoads := s1.readyLoads + 1 }
            else some s1
        | .connError =>
            if maxAttempts ≤ s1.attempts then
              some { s1 with intervalActive := false, errorScreens := s1.errorScreens + 1 }
            else some s1
        | .timedOut =>
            if maxAttempts ≤ s1.attempts then
              some { s1 with intervalActive := false, errorScreens := s1.errorScreens + 1 }
            else some s1
      else none
  | .spawnFailTimer =>
      if s.spawnFailPending then
        some { s with spawnFailPending := false, errorScreens := s.errorScreens + 1 }
      else none
  | .procClose code =>
      if s.procStarted && !s.procCloseFired then
        let s1 := { s with procCloseFired := true, procExited := true }
        match code with
        | some c => if c = 0 then some s1 else some { s1 with errorScreens := s1.errorScreens + 1 }
        | none => some s1
      else none
  | .windowClosed =>
      if s.windowClosedFired then none
      else
        let s1 := { s with windowClosedFired := true }
        if s1.procStarted then
          some (killProcess { s1 with killTimerArmed := true } "SIGTERM")
        else some s1
  | .killTimer =>
      if s.killTimerArmed then
        let s1 := { s with killTimerArmed := false }
        if s1.procStarted && !s1.killedFlag then some (killProcess s1 "SIGKILL")
        else some s1
      else none
  | .windowAllClosed =>
      if s.windowClosedFired then
        if s.procStarted then some (killProcess s "SIGTERM") else some s
      else none
  | .beforeQuit =>
      if s.procStarted then some (killProcess s "SIGTERM") else some s

/-- Fold a list of events through `step`; `none` if any event is invalid. -/
def run (s : LauncherState) : List Event → Option LauncherState
  | [] => some s
  | e :: es =>
      match step s e with
      | some s1 => run s1 es
      | none => none

/-- State right after `createWindow` returned: the loading screen is up,
`startStreamlit` has run (either reaching `spawn`, or throwing and
scheduling a delayed error screen), and the `checkStreamlit` interval has
been installed unconditionally. -/
def initState (spawnOk : Bool) : LauncherState :=
  { attempts := 0, intervalActive := true, pending := [], nextId := 0
    callsIssued := 0, readyLoads := 0, errorScreens := 0
    procStarted := spawnOk, procExited := false, killedFlag := false
    signalsSent := [], procCloseFired := false, windowClosedFired := false
    killTimerArmed := false, spawnFailPending := !spawnOk }

/-- The fully sequential schedule: each probe attempt's single callback
runs before the next interval tick fires.  `seqTraceFrom n outs` performs
`outs.length` attempts whose requests get ids `n, n+1, …`. -/
def seqTraceFrom : Nat → List Outcome → List Event
  | _, [] => []
  | n, o :: rest => Event.tick :: Event.respond n o :: seqTraceFrom (n + 1) rest

example : (run (initState true) [Event.tick]).map LauncherState.callsIssued = some 1 := rfl

/-!
## PathResolver

`part_000`, `startStreamlit` lines 299–334: the production branch builds a
three-element candidate list and selects the first existing element with
`possiblePaths.find(p => fs.existsSync(p))`; if none exists it reports the
full list of tried paths and returns.  `fs.existsSync` is abstracted as a
boolean oracle `ex`.
-/

/-- `Array.prototype.find` over the candidate list with an existence
oracle, instrumented with a spy: the second component counts how many
existence checks were evaluated.  `find` short-circuits, so the count
stops at the first hit. -/
def resolveFirst (ex : String → Bool) : List String → Option String × Nat
  | [] => (none, 0)
  | p :: rest =>
      if ex p then (some p, 1)
      else
        let r := resolveFirst ex rest
        (r.1, r.2 + 1)

/-- The resolution outcome of `startStreamlit` (`part_000`): the first
existing candidate, or the failure diagnostic carrying every tried
candidate path in order (`console.error('Tried paths:', …)` followed by an
early return). -/
def resolveEntry (ex : String → Bool) (paths : List String) : Except (List String) String :=
  match (resolveFirst ex paths).1 with
  | some p => .ok p
  | none => .error paths

/-- The production candidate list of `part_000` lines 309–313, as a
function of the three runtime roots. -/
def possiblePaths (resourcesPath appPath dirname : String) : List String :=
  [ resourcesPath ++ "/streamlit_app/lumina_app.py"
  , appPath ++ "/streamlit_app/lumina_app.py"
  , dirname ++ "/streamlit_app/lumina_app.py" ]

/-- `main.js` `getStreamlitAppPath` (lines 36–63): a single candidate
`<resourcePath>/streamlit_app`; throws an `Error` naming that path when it
does not exist. -/
def getStreamlitAppPath (ex : String → Bool) (resourcePath : String) :
    Except (List String) String :=
  resolveEntry ex [resourcePath ++ "/streamlit_app"]

/-!
## RuntimeDetector

`main.js` `startStreamlit` lines 317–342: try each candidate python
command with `execSync(cmd + ' --version', {timeout: 5000})`; the first
success wins (`break`), any failure is swallowed (`catch … continue`); if
the loop finds none, throw an error whose message lists every candidate.

The external executor is a pair of oracles: `ok cmd` tells whether the
command would eventually exit successfully, `dur cmd` how many
milliseconds it would run.  `execSync` with a `timeout` option kills the
child at the timeout, which surfaces as a failure; without the option it
waits the full duration.
-/

/-- An abstract command executor. -/
structure Exec where
  ok : String → Bool
  dur : String → Nat

/-- `execSync(cmd + ' --version', {timeout: tmo})`: result flag and
elapsed milliseconds.  If the natural duration exceeds the timeout the
child is killed at `tmo` and the call fails. -/
def execVersionBounded (e : Exec) (tmo : Nat) (c : String) : Bool × Nat :=
  if e.dur c ≤ tmo then (e.ok c, e.dur c) else (false, tmo)

/-- `execSync(cmd + ' --version', {stdio: 'pipe'})` with no timeout option
(`part_000` lines 350–360): the call blocks for the child's full duration. -/
def execVersionUnbounded (e : Exec) (c : String) : Bool × Nat :=
  (e.ok c, e.dur c)

/-- The python-detection loop of `main.js` (lines 325–339): first
candidate whose bounded `--version` probe succeeds, plus total elapsed
milliseconds across the attempted candidates. -/
def detectPython (e : Exec) : List String → Option String × Nat
  | [] => (none, 0)
  | c :: rest =>
      let r := execVersionBounded e versionProbeTimeoutMs c
      if r.1 then (some c, r.2)
      else
        let r1 := detectPython e rest
        (r1.1, r.2 + r1.2)

/-- Overall detection outcome of `main.js` lines 341–342: on failure the
thrown error message lists all candidate commands
(`'Tried: ' + pythonCommands.join(', ')`). -/
def detectResult (e : Exec) (cmds : List String) : Except (List String) String :=
  match (detectPython e cmds).1 with
  | some c => .ok c
  | none => .error cmds

/-- The python-detection loop of `part_000` (lines 350–360): same shape,
but the `execSync` call has no timeout option, so each attempted candidate
contributes its full natural duration. -/
def detectPython000 (e : Exec) : List String → Option String × Nat
  | [] => (none, 0)
  | c :: rest =>
      let r := execVersionUnbounded e c
      if r.1 then (some c, r.2)
      else
        let r1 := detectPython000 e rest
        (r1.1, r.2 + r1.2)

/-- `main.js` line 319: candidate commands in development mode. -/
def pythonCommandsDev : List String := ["python", "python3", "py"]

/-- `main.js` line 320: candidate commands in packaged mode. -/
def pythonCommandsProd : List String :=
  ["/opt/anaconda3/bin/python", "/opt/anaconda3/bin/python3", "python", "python3", "py"]

/-- `part_000` line 347: candidate commands of the draft launcher. -/
def pythonCommands000 : List String := ["python3", "python"]

/-!
## Data-file seeding

`setup.js` `setupDataFiles` (lines 95–133; the copy embedded at the end of
the concatenated `main.js` is identical in file names, headers and logic):
for each of four fixed CSV files, write a single header line only when the
file does not yet exist.  The data directory is modelled as a partial map
from file name to contents.
-/

/-- The four fixed seed files of `setupDataFiles`, in source order:
`(name, headers)`. -/
def csvFiles : List (String × String) :=
  [ ("updated-database-results.csv",
     "date,time,label,activity,distance,energy,pro,carb,fat,note,energy_acc,protein_acc,duration,pace,steps")
  , ("livsmedelsdatabas.csv", "livsmedel,calorie,protein,carb,fat")
  , ("recipie_databas.csv", "name,livsmedel,amount,code,favorite")
  , ("meal_databas.csv", "name,livsmedel,amount,code,favorite") ]

/-- One iteration of the `csvFiles.forEach` body:
`if (!fs.existsSync(filePath)) fs.writeFileSync(filePath, headers + '\n')`. -/
def writeIfAbsent (fsys : String → Option String) (nm hd : String) :
    String → Option String :=
  fun q => if q = nm then some ((fsys nm).getD (hd ++ "\n")) else fsys q

/-- `setupDataFiles`: seed every absent file of `csvFiles` with its single
header line; existing files are left as they are. -/
def setupDataFiles (fsys : String → Option String) : String → Option String :=
  csvFiles.foldl (fun acc f => writeIfAbsent acc f.1 f.2) fsys

example :
    setupDataFiles (fun _ => none) "meal_databas.csv"
      = some "name,livsmedel,amount,code,favorite\n" := by
  decide

/-- A launcher state in which the probe has already resolved (interval
cleared after a 200 on attempt 3) while no request is left pending. -/
def settledState : LauncherState :=
  { attempts := 3, intervalActive := false, pending := [], nextId := 3
    callsIssued := 3, readyLoads := 1, errorScreens := 0
    procStarted := true, procExited := false, killedFlag := false
    signalsSent := [], procCloseFired := false, windowClosedFired := false
    killTimerArmed := false, spawnFailPending := false }

/-- `settledState` after a clean subprocess exit (`close` with code 0). -/
def settledStopped : LauncherState :=
  { settledState with procCloseFired := true, procExited := true }

/-- The initial state after the subprocess `close` event fired with a
non-zero exit code. -/
def crashedState : LauncherState :=
  { initState true with procCloseFired := true, procExited := true, errorScreens := 1 }

/-- The no-subprocess initial state after the window `closed` handler ran. -/
def closedNoProc : LauncherState :=
  { initState false with windowClosedFired := true }

/-!
## Helper lemmas about the launcher state machine
-/

@[simp]
lemma killProcess_intervalActive (s : LauncherState) (sig : String) :
    (killProcess s sig).intervalActive = s.intervalActive := by
  unfold killProcess; split <;> rfl

@[simp]
lemma killProcess_callsIssued (s : LauncherState) (sig : String) :
    (killProcess s sig).callsIssued = s.callsIssued := by
  unfold killProcess; split <;> rfl

@[simp]
lemma killProcess_pending (s : LauncherState) (sig : String) :
    (killProcess s sig).pending = s.pending := by
  unfold killProcess; split <;> rfl

@[simp]
lemma killProcess_readyLoads (s : LauncherState) (sig : String) :
    (killProcess s sig).readyLoads = s.readyLoads := by
  unfold killProcess; split <;> rfl

@[simp]
lemma killProcess_attempts (s : LauncherState) (sig : String) :
    (killProcess s sig).attempts = s.attempts := by
  unfold killProcess; split <;> rfl

@[simp]
lemma killProcess_errorScreens (s : LauncherState) (sig : String) :
    (killProcess s sig).errorScreens = s.errorScreens := by
  unfold killProcess; split <;> rfl

@[simp]
lemma killProcess_procStarted (s : LauncherState) (sig : String) :
    (killProcess s sig).procStarted = s.procStarted := by
  unfold killProcess; split <;> rfl

lemma run_cons_some {s s1 : LauncherState} {e : Event} (es : List Event)
    (h : step s e = some s1) : run s (e :: es) = run s1 es := by
  simp [run, h]

/-- After `clearInterval` nothing reactivates the interval, no further
probe call is issued, and — when no request was left pending — the
Ready-navigation count can no longer change. -/
lemma step_inactive {s s1 : LauncherState} {e : Event}
    (h : step s e = some s1) (hact : s.intervalActive = false) :
    s1.intervalActive = false ∧ s1.callsIssued = s.callsIssued ∧
      (s.pending = [] → s1.pending = [] ∧ s1.readyLoads = s.readyLoads) := by
  cases e with
  | tick => simp [step, hact] at h
  | respond id o =>
      by_cases hmem : id ∈ s.pending
      · have hne : s.pending ≠ [] := by
          intro hp; rw [hp] at hmem; simp at hmem
        cases o with
        | status c =>
            by_cases hc : c = 200 <;> simp [step, hmem, hc] at h <;> subst h <;>
              exact ⟨by simp [hact], by simp, fun hp => absurd hp hne⟩
        | connError =>
            by_cases h30 : maxAttempts ≤ s.attempts <;> simp [step, hmem, h30] at h <;>
              subst h <;> exact ⟨by simp [hact], by simp, fun hp => absurd hp hne⟩
        | timedOut =>
            by_cases h30 : maxAttempts ≤ s.attempts <;> simp [step, hmem, h30] at h <;>
              subst h <;> exact ⟨by simp [hact], by simp, fun hp => absurd hp hne⟩
      · simp [step, hmem] at h
  | spawnFailTimer =>
      by_cases hs : s.spawnFailPending <;> simp [step, hs] at h
      subst h; exact ⟨by simp [hact], by simp, fun hp => ⟨by simp [hp], by simp⟩⟩
  | procClose code =>
      by_cases hs : s.procStarted && !s.procCloseFired
      · cases code with
        | some c =>
            by_cases hc : c = 0 <;> simp [step, hs, hc] at h <;> subst h <;>
              exact ⟨by simp [hact], by simp, fun hp => ⟨by simp [hp], by simp⟩⟩
        | none =>
            simp [step, hs] at h; subst h
            exact ⟨by simp [hact], by simp, fun hp => ⟨by simp [hp], by simp⟩⟩
      · simp [step, hs] at h
  | windowClosed =>
      by_cases hw : s.windowClosedFired
      · simp [step, hw] at h
      · by_cases hp : s.procStarted <;> simp [step, hw, hp] at h <;> subst h <;>
          exact ⟨by simpa using hact, by simp, fun hpe => ⟨by simpa using hpe, by simp⟩⟩
  | killTimer =>
      by_cases ha : s.killTimerArmed
      · by_cases hk : s.procStarted && !s.killedFlag <;> simp [step, ha, hk] at h <;>
          subst h <;>
          exact ⟨by simpa using hact, by simp, fun hpe => ⟨by simpa using hpe, by simp⟩⟩
      · simp [step, ha] at h
  | windowAllClosed =>
      by_cases hw : s.windowClosedFired
      · by_cases hp : s.procStarted <;> simp [step, hw, hp] at h <;> subst h <;>
          exact ⟨by simpa using hact, by simp, fun hpe => ⟨by simpa using hpe, by simp⟩⟩
      · simp [step, hw] at h
  | beforeQuit =>
      by_cases hp : s.procStarted <;> simp [step, hp] at h <;> subst h <;>
        exact ⟨by simpa using hact, by simp, fun hpe => ⟨by simpa using hpe, by simp⟩⟩

/-- Run-level closure of `step_inactive`. -/
lemma run_inactive :
    ∀ (tr : List Event) (s s1 : LauncherState),
      run s tr = some s1 → s.intervalActive = false →
      s1.intervalActive = false ∧ s1.callsIssued = s.callsIssued ∧
        (s.pending = [] → s1.pending = [] ∧ s1.readyLoads = s.readyLoads) := by
  intro tr
  induction tr with
  | nil =>
      intro s s1 h hact
      simp only [run, Option.some.injEq] at h
      subst h
      exact ⟨hact, rfl, fun hp => ⟨hp, rfl⟩⟩
  | cons e es ih =>
      intro s s1 h hact
      cases hstep : step s e with
      | none => rw [run, hstep] at h; simp at h
      | some s2 =>
          rw [run_cons_some es hstep] at h
          obtain ⟨h1, h2, h3⟩ := step_inactive hstep hact
          obtain ⟨g1, g2, g3⟩ := ih s2 s1 h h1
          refine ⟨g1, by omega, fun hp => ?_⟩
          obtain ⟨p1, p2⟩ := h3 hp
          obtain ⟨q1, q2⟩ := g3 p1
          exact ⟨q1, by omega⟩

/-- Without a `streamlitProcess` handle no shutdown handler sends any
signal, and the handle never appears later. -/
lemma step_notStarted {s s1 : LauncherState} {e : Event}
    (h : step s e = some s1) (hns : s.procStarted = false) :
    s1.procStarted = false ∧ s1.signalsSent = s.signalsSent ∧
      s1.killedFlag = s.killedFlag := by
  cases e with
  | tick =>
      by_cases ha : s.intervalActive <;> simp [step, ha] at h
      subst h; exact ⟨hns, rfl, rfl⟩
  | respond id o =>
      by_cases hmem : id ∈ s.pending
      · cases o with
        | status c =>
            by_cases hc : c = 200 <;> simp [step, hmem, hc] at h <;> subst h <;>
              exact ⟨by simp [hns], by simp, by simp⟩
        | connError =>
            by_cases h30 : maxAttempts ≤ s.attempts <;> simp [step, hmem, h30] at h <;>
              subst h <;> exact ⟨by simp [hns], by simp, by simp⟩
        | timedOut =>
            by_cases h30 : maxAttempts ≤ s.attempts <;> simp [step, hmem, h30] at h <;>
              subst h <;> exact ⟨by simp [hns], by simp, by simp⟩
      · simp [step, hmem] at h
  | spawnFailTimer =>
      by_cases hs : s.spawnFailPending <;> simp [step, hs] at h
      subst h; exact ⟨by simp [hns], by simp, by simp⟩
  | procClose code =>
      simp [step, hns] at h
  | windowClosed =>
      by_cases hw : s.windowClosedFired
      · simp [step, hw] at h
      · simp [step, hw, hns] at h
        subst h; exact ⟨by simp [hns], by simp, by simp⟩
  | killTimer =>
      by_cases ha : s.killTimerArmed
      · simp [step, ha, hns] at h
        subst h; exact ⟨by simp [hns], by simp, by simp⟩
      · simp [step, ha] at h
  | windowAllClosed =>
      by_cases hw : s.windowClosedFired
      · simp [step, hw, hns] at h
        subst h; exact ⟨by simp [hns], by simp, by simp⟩
      · simp [step, hw] at h
  | beforeQuit =>
      simp [step, hns] at h
      subst h; exact ⟨by simp [hns], by simp, by simp⟩

/-- Run-level closure of `step_notStarted`. -/
lemma run_notStarted :
    ∀ (tr : List Event) (s s1 : LauncherState),
      run s tr = some s1 → s.procStarted = false →
      s1.procStarted = false ∧ s1.signalsSent = s.signalsSent ∧
        s1.killedFlag = s.killedFlag := by
  intro tr
  induction tr with
  | nil =>
      intro s s1 h hns
      simp only [run, Option.some.injEq] at h
      subst h
      exact ⟨hns, rfl, rfl⟩
  | cons e es ih =>
      intro s s1 h hns
      cases hstep : step s e with
      | none => rw [run, hstep] at h; simp at h
      | some s2 =>
          rw [run_cons_some es hstep] at h
          obtain ⟨h1, h2, h3⟩ := step_notStarted hstep hns
          obtain ⟨g1, g2, g3⟩ := ih s2 s1 h h1
          exact ⟨g1, by rw [g2, h2], by rw [g3, h3]⟩

/-- A fully sequential polling run in which every attempt fails with a
connection error or a per-attempt timeout: after `outs.length` attempts
the counters advance by exactly that much, and the interval is cleared
with one error screen exactly when the attempt counter reaches
`maxAttempts`. -/
lemma run_seq_allFail :
    ∀ (outs : List Outcome) (s : LauncherState),
      (∀ o ∈ outs, o = Outcome.connError ∨ o = Outcome.timedOut) →
      s.intervalActive = true → s.pending = [] →
      s.attempts < maxAttempts →
      s.attempts + outs.length ≤ maxAttempts →
      run s (seqTraceFrom s.nextId outs) = some
        { s with
          attempts := s.attempts + outs.length
          nextId := s.nextId + outs.length
          callsIssued := s.callsIssued + outs.length
          pending := []
          intervalActive := decide (s.attempts + outs.length < maxAttempts)
          errorScreens := s.errorScreens +
            (if s.attempts + outs.length < maxAttempts then 0 else 1) } := by
  intro outs
  induction outs with
  | nil =>
      intro s hall hact hpend hlt hle
      simp only [seqTraceFrom, run, Option.some.injEq, List.length_nil, Nat.add_zero]
      cases s
      simp_all
  | cons o rest ih =>
      intro s hall hact hpend hlt hle
      have hstep1 : step s .tick = some
          { s with attempts := s.attempts + 1, pending := [s.nextId],
                   nextId := s.nextId + 1, callsIssued := s.callsIssued + 1 } := by
        simp [step, hact, hpend]
      have hofail : o = Outcome.connError ∨ o = Outcome.timedOut :=
        hall o (by simp)
      simp only [seqTraceFrom]
      rw [run_cons_some _ hstep1]
      by_cases h30 : maxAttempts ≤ s.attempts + 1
      · have ha1 : s.attempts + 1 = maxAttempts := by omega
        have hr0 : rest.length = 0 := by
          simp only [List.length_cons] at hle; omega
        have hrest : rest = [] := List.length_eq_zero.mp hr0
        subst hrest
        have hstep2 : step
            { s with attempts := s.attempts + 1, pending := [s.nextId],
                     nextId := s.nextId + 1, callsIssued := s.callsIssued + 1 }
            (.respond s.nextId o) = some
            { s with attempts := s.attempts + 1, pending := [],
                     nextId := s.nextId + 1, callsIssued := s.callsIssued + 1,
                     intervalActive := false,
                     errorScreens := s.errorScreens + 1 } := by
          rcases hofail with rfl | rfl <;> simp [step, h30]
        rw [run_cons_some _ hstep2]
        simp only [seqTraceFrom, run, Option.some.injEq, List.length_cons,
          List.length_nil, Nat.zero_add]
        cases s
        simp_all
      · have hlt1 : s.attempts + 1 < maxAttempts := by omega
        have hstep2 : step
            { s with attempts := s.attempts + 1, pending := [s.nextId],
                     nextId := s.nextId + 1, callsIssued := s.callsIssued + 1 }
            (.respond s.nextId o) = some
            { s with attempts := s.attempts + 1, pending := [],
                     nextId := s.nextId + 1, callsIssued := s.callsIssued + 1 } := by
          rcases hofail with rfl | rfl <;> simp [step, h30]
        rw [run_cons_some _ hstep2]
        have hrec := ih
          { s with attempts := s.attempts + 1, pending := [],
                   nextId := s.nextId + 1, callsIssued := s.callsIssued + 1 }
          (fun x hx => hall x (by simp [hx])) hact rfl hlt1 (by
            simp only [List.length_cons] at hle
            simpa using by omega)
        simp only at hrec
        rw [hrec]
        have e1 : s.attempts + 1 + rest.length = s.attempts + (rest.length + 1) := by omega
        have e2 : s.nextId + 1 + rest.length = s.nextId + (rest.length + 1) := by omega
        have e3 : s.callsIssued + 1 + rest.length = s.callsIssued + (rest.length + 1) := by omega
        simp only [List.length_cons, e1, e2, e3]

/-!
## Helper lemmas: PathResolver, RuntimeDetector, data seeding
-/

/-- `Array.find` with no hit: every candidate is checked, in order, and
the result is empty. -/
lemma resolveFirst_none (ex : String → Bool) :
    ∀ paths : List String, (∀ q ∈ paths, ex q = false) →
      resolveFirst ex paths = (none, paths.length) := by
  intro paths
  induction paths with
  | nil => intro _; rfl
  | cons p rest ih =>
      intro hall
      have hp : ex p = false := hall p (by simp)
      simp [resolveFirst, hp, ih fun q hq => hall q (by simp [hq])]

/-- `Array.find` short-circuits: with the first hit at position
`pre.length`, exactly `pre.length + 1` existence checks are evaluated. -/
lemma resolveFirst_hit (ex : String → Bool) :
    ∀ (pre : List String) (p : String) (post : List String),
      (∀ q ∈ pre, ex q = false) → ex p = true →
      resolveFirst ex (pre ++ p :: post) = (some p, pre.length + 1) := by
  intro pre
  induction pre with
  | nil => intro p post _ hp; simp [resolveFirst, hp]
  | cons q pre ih =>
      intro p post hall hp
      have hq : ex q = false := hall q (by simp)
      simp [resolveFirst, hq, ih p post (fun r hr => hall r (by simp [hr])) hp]

/-- A bounded version probe never runs longer than its timeout. -/
lemma execVersionBounded_le (e : Exec) (tmo : Nat) (c : String) :
    (execVersionBounded e tmo c).2 ≤ tmo := by
  unfold execVersionBounded
  split
  · simpa using by omega
  · simp

lemma detectPython_eq_find (e : Exec) :
    ∀ cmds : List String,
      (detectPython e cmds).1
        = cmds.find? (fun c => (execVersionBounded e versionProbeTimeoutMs c).1) := by
  intro cmds
  induction cmds with
  | nil => rfl
  | cons c rest ih =>
      by_cases hc : (execVersionBounded e versionProbeTimeoutMs c).1 <;>
        simp [detectPython, List.find?, hc, ih]

lemma detectPython_elapsed_le (e : Exec) :
    ∀ cmds : List String,
      (detectPython e cmds).2 ≤ versionProbeTimeoutMs * cmds.length := by
  intro cmds
  induction cmds with
  | nil => simp [detectPython]
  | cons c rest ih =>
      have hb := execVersionBounded_le e versionProbeTimeoutMs c
      by_cases hc : (execVersionBounded e versionProbeTimeoutMs c).1 <;>
        simp [detectPython, hc, List.length_cons, Nat.mul_succ] <;> omega

lemma writeIfAbsent_preserves {f : String → Option String} {q c : String} (nm hd : String)
    (h : f q = some c) : writeIfAbsent f nm hd q = some c := by
  unfold writeIfAbsent
  by_cases hq : q = nm
  · subst hq; simp [h]
  · simp [hq, h]

lemma writeIfAbsent_isSome_self (f : String → Option String) (nm hd : String) :
    (writeIfAbsent f nm hd nm).isSome := by
  simp [writeIfAbsent]

lemma writeIfAbsent_isSome_mono {f : String → Option String} {q : String} (nm hd : String)
    (h : (f q).isSome) : (writeIfAbsent f nm hd q).isSome := by
  unfold writeIfAbsent
  by_cases hq : q = nm <;> simp [hq, h]

lemma writeIfAbsent_other {f : String → Option String} {q nm : String} (hd : String)
    (h : q ≠ nm) : writeIfAbsent f nm hd q = f q := by
  simp [writeIfAbsent, h]

/-- Existing files survive `setupDataFiles` untouched. -/
lemma setupDataFiles_preserves {f : String → Option String} {q c : String}
    (h : f q = some c) : setupDataFiles f q = some c := by
  simp only [setupDataFiles, csvFiles, List.foldl]
  exact writeIfAbsent_preserves _ _ (writeIfAbsent_preserves _ _
    (writeIfAbsent_preserves _ _ (writeIfAbsent_preserves _ _ h)))

/-- After `setupDataFiles` every one of the four seed files exists. -/
lemma setupDataFiles_isSome (f : String → Option String) :
    ∀ nm ∈ csvFiles.map Prod.fst, (setupDataFiles f nm).isSome := by
  intro nm hm
  simp only [csvFiles, List.map, List.mem_cons, List.not_mem_nil, or_false] at hm
  simp only [setupDataFiles, csvFiles, List.foldl]
  rcases hm with rfl | rfl | rfl | rfl
  · exact writeIfAbsent_isSome_mono _ _ (writeIfAbsent_isSome_mono _ _
      (writeIfAbsent_isSome_mono _ _ (writeIfAbsent_isSome_self f _ _)))
  · exact writeIfAbsent_isSome_mono _ _ (writeIfAbsent_isSome_mono _ _
      (writeIfAbsent_isSome_self _ _ _))
  · exact writeIfAbsent_isSome_mono _ _ (writeIfAbsent_isSome_self _ _ _)
  · exact writeIfAbsent_isSome_self _ _ _

/-- Names outside the four seed files are never written. -/
lemma setupDataFiles_other {q : String} (f : String → Option String)
    (h : q ∉ csvFiles.map Prod.fst) : setupDataFiles f q = f q := by
  simp only [csvFiles, List.map, List.mem_cons, List.not_mem_nil, or_false,
    not_or] at h
  obtain ⟨h1, h2, h3, h4⟩ := h
  simp only [setupDataFiles, csvFiles, List.foldl]
  rw [writeIfAbsent_other _ h4, writeIfAbsent_other _ h3,
    writeIfAbsent_other _ h2, writeIfAbsent_other _ h1]

/-!
## Claim theorems
-/

/-- C5: for every candidate list, if at least one candidate exists the
resolver returns the first existing candidate and evaluates no existence
check on any candidate after it (the spy count stops at its position), and
if no candidate exists the failure diagnostic carries all tried candidate
paths in the order they were tried, after checking every one of them. -/
theorem pathResolver_first_existing_and_notfound :
    (∀ (ex : String → Bool) (pre : List String) (p : String) (post : List String),
      (∀ q ∈ pre, ex q = false) → ex p = true →
        resolveFirst ex (pre ++ p :: post) = (some p, pre.length + 1)) ∧
    (∀ (ex : String → Bool) (paths : List String),
      (∀ q ∈ paths, ex q = false) →
        resolveEntry ex paths = Except.error paths ∧
          (resolveFirst ex paths).2 = paths.length) := by
  constructor
  · exact fun ex pre p post h1 h2 => resolveFirst_hit ex pre p post h1 h2
  · intro ex paths hall
    have h := resolveFirst_none ex paths hall
    constructor
    · simp [resolveEntry, h]
    · rw [h]

/-- C5 witness: with only the middle of three candidates existing the
first existing one is returned after exactly two checks, and with no
candidate existing the production candidate list of `part_000` is reported
in full and in order. -/
theorem pathResolver_first_existing_and_notfound_witness :
    resolveFirst (fun q => q == "appPath/streamlit_app/lumina_app.py")
        (possiblePaths "resPath" "appPath" "dir")
      = (some "appPath/streamlit_app/lumina_app.py", 2) ∧
    resolveEntry (fun _ => false) (possiblePaths "resPath" "appPath" "dir")
      = Except.error (possiblePaths "resPath" "appPath" "dir") := by
  constructor
  · exact pathResolver_first_existing_and_notfound.1
      (fun q => q == "appPath/streamlit_app/lumina_app.py")
      ["resPath/streamlit_app/lumina_app.py"]
      "appPath/streamlit_app/lumina_app.py"
      ["dir/streamlit_app/lumina_app.py"] (by decide) (by decide)
  · exact (pathResolver_first_existing_and_notfound.2 (fun _ => false)
      (possiblePaths "resPath" "appPath" "dir") (by decide)).1

/-- C6 counterexample: the detection loop of the draft launcher
(`part_000` lines 350–360) calls `execSync` without a timeout option, so a
candidate whose version probe hangs blocks detection for its full
duration: with both candidates hanging for 10^9 ms the loop blocks for
2·10^9 ms, far beyond the 5000 ms per-candidate bound the claim asserts. -/
theorem detectPython000_unbounded_cex :
    (detectPython000 ⟨fun _ => false, fun _ => 1000000000⟩ pythonCommands000).2
        = 2000000000 ∧
    versionProbeTimeoutMs * pythonCommands000.length < 2000000000 := by
  constructor
  · rfl
  · decide

/-- C6 amended: the primary detector (`main.js` lines 317–342, bounded by
a 5000 ms per-candidate timeout) returns the first candidate whose version
probe succeeds, swallows failing candidates, spends at most
`5000 · #candidates` ms in total — so a timing-out candidate cannot block
beyond its bound — and, when no candidate succeeds, fails with an error
listing all attempted commands.  The draft detector in `part_000` has no
timeout, so its blocking time is unbounded (see the counterexample). -/
theorem detectPython_first_success_bounded :
    (∀ (e : Exec) (cmds : List String),
      (detectPython e cmds).1
        = cmds.find? (fun c => (execVersionBounded e versionProbeTimeoutMs c).1)) ∧
    (∀ (e : Exec) (cmds : List String),
      (detectPython e cmds).2 ≤ versionProbeTimeoutMs * cmds.length) ∧
    (∀ (e : Exec) (cmds : List String),
      (∀ c ∈ cmds, (execVersionBounded e versionProbeTimeoutMs c).1 = false) →
        detectResult e cmds = Except.error cmds) := by
    refine ⟨detectPython_eq_find, detectPython_elapsed_le, ?_⟩
    intro e cmds hall
    have hfind : cmds.find? (fun c => (execVersionBounded e versionProbeTimeoutMs c).1)
        = none := by
      rw [List.find?_eq_none]
      intro c hc
      simp [hall c hc]
    simp [detectResult, detectPython_eq_find, hfind]

/-- C6 witness: a concrete executor where `python` fails fast and
`python3` succeeds makes the development candidate list resolve to
`python3` within the total bound, and an always-failing executor on the
packaged candidate list reports all five attempted commands. -/
theorem detectPython_first_success_bounded_witness :
    (detectPython ⟨fun c => c == "python3", fun _ => 10⟩ pythonCommandsDev).1
        = some "python3" ∧
    (detectPython ⟨fun c => c == "python3", fun _ => 10⟩ pythonCommandsDev).2
        ≤ versionProbeTimeoutMs * pythonCommandsDev.length ∧
    detectResult ⟨fun _ => false, fun _ => 10⟩ pythonCommandsProd
        = Except.error pythonCommandsProd := by
  refine ⟨?_, detectPython_first_success_bounded.2.1 _ _,
    detectPython_first_success_bounded.2.2 _ _ (by decide)⟩
  rw [detectPython_first_success_bounded.1]
  decide

/-- C8: seeding the data directory is idempotent — from an empty
directory, each of the four fixed CSV files is created with exactly its
single header line (the recipe and meal files sharing one header schema);
any file that already exists keeps its contents, so a re-run changes
nothing. -/
theorem setupDataFiles_seed_idempotent :
    (∀ nm hd : String, (nm, hd) ∈ csvFiles →
      setupDataFiles (fun _ => none) nm = some (hd ++ "\n")) ∧
    (csvFiles.map Prod.snd).get? 2 = (csvFiles.map Prod.snd).get? 3 ∧
    (∀ (f : String → Option String) (nm c : String),
      f nm = some c → setupDataFiles f nm = some c) ∧
    (∀ (f : String → Option String) (nm : String),
      setupDataFiles (setupDataFiles f) nm = setupDataFiles f nm) := by
  refine ⟨?_, by decide, fun f nm c h => setupDataFiles_preserves h, ?_⟩
  · intro nm hd hmem
    simp only [csvFiles, List.mem_cons, List.not_mem_nil, or_false,
      Prod.mk.injEq] at hmem
    rcases hmem with ⟨rfl, rfl⟩ | ⟨rfl, rfl⟩ | ⟨rfl, rfl⟩ | ⟨rfl, rfl⟩ <;> decide
  · intro f nm
    by_cases h : nm ∈ csvFiles.map Prod.fst
    · obtain ⟨c, hc⟩ := Option.isSome_iff_exists.mp (setupDataFiles_isSome f nm h)
      rw [setupDataFiles_preserves hc, hc]
    · rw [setupDataFiles_other _ h, setupDataFiles_other f h]

/-- C8 witness: concrete instances — the activity-log file seeded from an
empty directory gets exactly its header line, and a pre-existing food
database is left untouched by a run of `setupDataFiles`. -/
theorem setupDataFiles_seed_idempotent_witness :
    setupDataFiles (fun _ => none) "updated-database-results.csv"
      = some ("date,time,label,activity,distance,energy,pro,carb,fat,note,energy_acc,protein_acc,duration,pace,steps" ++ "\n") ∧
    setupDataFiles (fun nm => if nm = "livsmedelsdatabas.csv" then some "old" else none)
        "livsmedelsdatabas.csv" = some "old" := by
  constructor
  · exact setupDataFiles_seed_idempotent.1 _ _ (by decide)
  · exact setupDataFiles_seed_idempotent.2.2.1 _ _ _ (by decide)

/-- C9 counterexample: in `main.js` the probe's per-attempt HTTP timeout
(2000 ms) equals the polling interval (2000 ms) — it is not strictly
shorter, contradicting the claim for the primary launcher. -/
theorem probe_timeout_equals_interval_cex :
    mainProbe.timeoutMs = mainProbe.intervalMs ∧
    decide (mainProbe.timeoutMs < mainProbe.intervalMs) = false := by
  decide

/-- C9 amended: the draft probe's per-attempt timeout (1000 ms) is
strictly shorter than its 2000 ms interval; the primary probe's timeout is
bounded by — but exactly equal to — its interval; the detector's version
and module checks are bounded one-shot calls (5000 ms and 10000 ms) with
no enclosing retry interval. -/
theorem probe_timeouts_amended :
    draftProbe.timeoutMs < draftProbe.intervalMs ∧
    mainProbe.timeoutMs ≤ mainProbe.intervalMs ∧
    mainProbe.timeoutMs = mainProbe.intervalMs ∧
    versionProbeTimeoutMs = 5000 ∧ moduleCheckTimeoutMs = 10000 := by
  decide

/-- C1 counterexample: the resolution is not guarded.  With the request of
attempt 1 still in flight when attempt 2's request resolves with status
200 (possible because the request timeout is inactivity-based and does not
bound total request duration), the later 200 of the first request runs
`loadURL` + `show` a second time: Ready is resolved twice in a valid
schedule. -/
theorem checkStreamlit_ready_twice_cex :
    (run (initState true)
        [Event.tick, Event.tick,
         Event.respond 1 (Outcome.status 200), Event.respond 0 (Outcome.status 200)]).map
      (fun s => (s.readyLoads, s.callsIssued))
      = some (2, 2) := by
  decide

/-- C1 amended: after the probe resolves (the interval is cleared), no
further probe network call is ever issued — Node never fires a cleared
interval — and, when no other request was in flight at the moment of
resolution, the Ready navigation count can no longer change (it is exactly
once).  The exactly-once part fails only through requests already pending
at resolution, as the counterexample shows. -/
theorem checkStreamlit_settled_amended (tr : List Event) (s s1 : LauncherState)
    (h : run s tr = some s1) (hact : s.intervalActive = false) :
    s1.callsIssued = s.callsIssued ∧
      (s.pending = [] → s1.readyLoads = s.readyLoads) := by
  obtain ⟨_, h2, h3⟩ := run_inactive tr s s1 h hact
  exact ⟨h2, fun hp => (h3 hp).2⟩

/-- C1 witness: from a settled state with nothing pending, a further event
(a clean subprocess exit) issues no probe call and leaves the Ready count
at one. -/
theorem checkStreamlit_settled_amended_witness :
    run settledState [Event.procClose (some 0)] = some settledStopped ∧
    settledStopped.callsIssued = settledState.callsIssued ∧
    settledStopped.readyLoads = settledState.readyLoads :=
  ⟨rfl, (checkStreamlit_settled_amended [Event.procClose (some 0)]
      settledState settledStopped rfl rfl).1,
    (checkStreamlit_settled_amended [Event.procClose (some 0)]
      settledState settledStopped rfl rfl).2 rfl⟩

/-- C2 counterexample: a response with a non-success status code is not
treated as a failed attempt at all — the response handler only tests for
200 and otherwise does nothing.  After 30 attempts that all returned
status 500 the probe has not transitioned to Failed (no error screen), the
interval is still active, and a 31st network call is issued. -/
theorem checkStreamlit_status500_never_fails_cex :
    (run (initState true)
        (seqTraceFrom 0 (List.replicate 30 (Outcome.status 500)) ++ [Event.tick])).map
      (fun s => (s.errorScreens, s.intervalActive, s.callsIssued, s.attempts))
      = some (0, true, 31, 31) := by
  decide

/-- C2 amended: connection-refused and per-attempt timeout are treated
identically as "not ready yet", and — when every attempt fails with one of
those two kinds — the probe transitions to Failed (one error screen,
interval cleared) exactly when `maxAttempts` (30) attempts have failed: no
error screen and a live interval at any count below 30.  Non-success
status responses are excluded: they are silently ignored (see the
counterexample). -/
theorem checkStreamlit_fail_exactly_maxAttempts (outs : List Outcome)
    (hall : ∀ o ∈ outs, o = Outcome.connError ∨ o = Outcome.timedOut)
    (hle : outs.length ≤ maxAttempts) :
    (run (initState true) (seqTraceFrom 0 outs)).map
        (fun s => (s.attempts, s.errorScreens, s.intervalActive))
      = some (outs.length, if outs.length < maxAttempts then 0 else 1,
          decide (outs.length < maxAttempts)) := by
  have h := run_seq_allFail outs (initState true) hall rfl rfl (by decide)
    (by simpa [initState] using hle)
  simp only [initState] at h ⊢
  rw [h]
  simp

/-- C2 witness: thirty connection-refused attempts in sequence produce
exactly one error screen, with the interval cleared at attempt 30. -/
theorem checkStreamlit_fail_exactly_maxAttempts_witness :
    (run (initState true) (seqTraceFrom 0 (List.replicate 30 Outcome.connError))).map
        (fun s => (s.attempts, s.errorScreens, s.intervalActive))
      = some (30, 1, false) := by
  have h := checkStreamlit_fail_exactly_maxAttempts
    (List.replicate 30 Outcome.connError)
    (fun o ho => Or.inl (List.eq_of_mem_replicate ho)) (by decide)
  simpa [maxAttempts] using h

/-- C3 counterexample: a crash exit (code 1) after attempt 2 does not
cancel the probe.  In the run below the subprocess crashes after two
failed attempts, yet all 30 probe attempts are still issued, the probe
only stops by exhausting `maxAttempts`, and the error screen is shown
twice (once for the crash, once for the exhaustion) — not exactly once,
and not before attempt 30. -/
theorem procClose_crash_no_cancel_cex :
    (run (initState true)
        (seqTraceFrom 0 [Outcome.connError, Outcome.connError] ++
          Event.procClose (some 1) ::
            seqTraceFrom 2 (List.replicate 28 Outcome.connError))).map
      (fun s => (s.errorScreens, s.callsIssued, s.intervalActive))
      = some (2, 30, false) := by
  decide

/-- C3 amended: the subprocess `close` handler shows the error screen for
a non-zero exit code but performs no probe cancellation whatsoever — the
interval flag, the attempt counter and the number of issued network calls
are all left untouched, so polling continues until its own exhaustion
(which shows the error screen a second time). -/
theorem procClose_crash_amended (s : LauncherState) (code : Option Int)
    (s1 : LauncherState) (h : step s (Event.procClose code) = some s1) :
    s1.intervalActive = s.intervalActive ∧ s1.callsIssued = s.callsIssued ∧
      s1.attempts = s.attempts ∧ s1.pending = s.pending ∧
      s1.errorScreens = s.errorScreens +
        (match code with | some c => if c = 0 then 0 else 1 | none => 0) := by
  by_cases hs : s.procStarted && !s.procCloseFired
  · cases code with
    | some c =>
        by_cases hc : c = 0 <;> simp [step, hs, hc] at h <;> subst h <;> simp [hc]
    | none => simp [step, hs] at h; subst h; simp
  · simp [step, hs] at h

/-- C3 witness: a crash exit with code 1 from the initial state adds one
error screen and leaves the interval active with no calls issued. -/
theorem procClose_crash_amended_witness :
    step (initState true) (Event.procClose (some 1)) = some crashedState ∧
    crashedState.intervalActive = (initState true).intervalActive ∧
    crashedState.callsIssued = (initState true).callsIssued ∧
    crashedState.errorScreens = (initState true).errorScreens + 1 := by
  refine ⟨rfl, (procClose_crash_amended (initState true) (some 1) crashedState rfl).1,
    (procClose_crash_amended (initState true) (some 1) crashedState rfl).2.1, ?_⟩
  simpa using (procClose_crash_amended (initState true) (some 1) crashedState rfl).2.2.2.2

/-- C4 counterexample: a single window-close sequence delivers two SIGTERM
signals, not one — the `closed` handler and the `window-all-closed`
handler each call `kill('SIGTERM')` on the still-live process — and the
5000 ms escalation check then sends no SIGKILL even though the process has
never exited, because `ChildProcess.killed` became true when the first
SIGTERM was delivered, not when the process exited. -/
theorem window_close_double_sigterm_cex :
    (run (initState true) [Event.windowClosed, Event.windowAllClosed, Event.killTimer]).map
      (fun s => (s.signalsSent, s.procExited))
      = some (["SIGTERM", "SIGTERM"], false) := by
  decide

/-- C4 amended: with no process handle every shutdown handler is a no-op
(never-started stop sends nothing); the grace-timer callback sends SIGKILL
if and only if the handle exists, the `killed` flag is still false (i.e.
no signal was ever successfully delivered — not "the process has not
exited") and the process is alive, so once a SIGTERM was delivered a
surviving process is never force-killed; and a full close sequence
(`closed`, `window-all-closed`, `before-quit`, grace timer) on a live
process delivers three SIGTERMs and no SIGKILL. -/
theorem stop_sequence_amended :
    (∀ (tr : List Event) (s1 : LauncherState),
      run (initState false) tr = some s1 →
        s1.signalsSent = [] ∧ s1.killedFlag = false) ∧
    (∀ (s s1 : LauncherState), step s Event.killTimer = some s1 →
      (s.killedFlag = true → s1.signalsSent = s.signalsSent) ∧
      (s1.signalsSent = s.signalsSent ++ ["SIGKILL"] ↔
        s.procStarted = true ∧ s.killedFlag = false ∧ s.procExited = false)) ∧
    (run (initState true)
        [Event.windowClosed, Event.windowAllClosed, Event.beforeQuit, Event.killTimer]).map
      (fun s => (s.signalsSent, s.procExited))
      = some (["SIGTERM", "SIGTERM", "SIGTERM"], false) := by
  refine ⟨?_, ?_, by decide⟩
  · intro tr s1 h
    have hh := run_notStarted tr (initState false) s1 h rfl
    exact ⟨hh.2.1, hh.2.2⟩
  · intro s s1 h
    by_cases ha : s.killTimerArmed
    · by_cases hk : s.procStarted && !s.killedFlag
      · by_cases he : s.procStarted && !s.procExited
        · simp [step, ha, hk, killProcess, he] at h
          subst h
          constructor
          · intro hkf
            simp [hkf] at hk
          · simp only [Bool.and_eq_true, Bool.not_eq_true'] at hk he
            simp [hk.1, hk.2, he.2]
        · simp [step, ha, hk, killProcess, he] at h
          subst h
          constructor
          · intro hkf
            simp [hkf] at hk
          · simp only [Bool.and_eq_true, Bool.not_eq_true'] at hk
            simp only [Bool.and_eq_true, Bool.not_eq_true', not_and] at he
            constructor
            · intro habs
              have := congrArg List.length habs
              simp at this
            · rintro ⟨-, -, hex⟩
              exact absurd (he hk.1) (by simp [hex])
      · simp [step, ha, hk] at h
        subst h
        refine ⟨fun _ => rfl, ?_⟩
        simp only [Bool.and_eq_true, Bool.not_eq_true', not_and] at hk
        constructor
        · intro habs
          have := congrArg List.length habs
          simp at this
        · rintro ⟨hst, hkf, -⟩
          exact absurd (hk hst) (by simp [hkf])
    · simp [step, ha] at h

/-- C4 witness: the window `closed` handler on a never-started process is
a no-op — no termination signal is delivered. -/
theorem stop_sequence_amended_witness :
    run (initState false) [Event.windowClosed] = some closedNoProc ∧
    closedNoProc.signalsSent = [] ∧ closedNoProc.killedFlag = false :=
  ⟨rfl, (stop_sequence_amended.1 [Event.windowClosed] closedNoProc rfl).1,
    (stop_sequence_amended.1 [Event.windowClosed] closedNoProc rfl).2⟩

/-- C7 counterexample: a `null` exit code (signal-terminated subprocess)
with no prior `stop` — no termination signal was ever sent — produces no
failure report at all: the `close` handler tests `code !== 0 && code !==
null` and therefore silently swallows signal-terminated exits regardless
of whether a stop preceded them, where the claim requires them to be
treated as a crash. -/
theorem procClose_null_silent_cex :
    (run (initState true) [Event.procClose none]).map
      (fun s => (s.errorScreens, s.signalsSent))
      = some (0, []) := by
  decide

/-- C7 amended: the exit-observation handler triggers the failure report
exactly for a non-null, non-zero exit code: code 0 is clean, any other
integer code shows the error screen, and a `null` (signal-terminated)
code is silently ignored — independent of whether an explicit stop was
ever issued (the condition never consults the stop state). -/
theorem procClose_error_screen_iff_nonzero (s : LauncherState) (code : Option Int)
    (s1 : LauncherState) (h : step s (Event.procClose code) = some s1) :
    s1.errorScreens ≠ s.errorScreens ↔ code ≠ some 0 ∧ code ≠ none := by
  by_cases hs : s.procStarted && !s.procCloseFired
  · cases code with
    | some c =>
        by_cases hc : c = 0 <;> simp [step, hs, hc] at h <;> subst h <;> simp [hc]
    | none => simp [step, hs] at h; subst h; simp
  · simp [step, hs] at h

/-- C7 witness: an exit with code 7 (no stop ever issued) is classified as
a crash and reported. -/
theorem procClose_error_screen_iff_nonzero_witness :
    step (initState true) (Event.procClose (some 7)) = some crashedState ∧
    crashedState.errorScreens ≠ (initState true).errorScreens :=
  ⟨rfl, (procClose_error_screen_iff_nonzero (initState true) (some 7) crashedState
    rfl).mpr ⟨by decide, by decide⟩⟩

/-- C10: the readiness polling interval is installed by `createWindow`
unconditionally — its flag is active whether or not `startStreamlit`
reached `spawn` — and when startup has already failed (error screen shown
once by the catch path), the probe still runs all `maxAttempts` (30) HTTP
GET attempts against `localhost:8501` and on exhaustion shows the error
screen a second time. -/
theorem createWindow_probe_unconditional :
    (initState true).intervalActive = true ∧
    (initState false).intervalActive = true ∧
    (run (initState false)
        (Event.spawnFailTimer ::
          seqTraceFrom 0 (List.replicate maxAttempts Outcome.connError))).map
      (fun s => (s.callsIssued, s.errorScreens, s.intervalActive))
      = some (30, 2, false) ∧
    mainProbe.host = "localhost" ∧ mainProbe.port = 8501 := by
  refine ⟨rfl, rfl, by decide, rfl, rfl⟩
